import Mathlib

/-!
Verification of the secure chat relay (Go server under `server/`, with the
historical revisions that ship alongside it) against its specification.

Conventions of the embedding:
* Byte strings (`[]byte`, UTF-8 contents of Go `string`s, base64 payloads
  after decoding) are `List Nat`, each entry a byte value < 256.
* Machine integers are `Nat`; where Go's `uint64` arithmetic can wrap
  (`atomic.Uint64.Add`) the embedding reduces modulo `2 ^ 64` explicitly.
* Randomness (nonces, salts, ECDH outputs) and fallible external effects
  (store writes, RSA operations, JSON handling) are passed in as explicit
  arguments or `Option`/`Bool` oracle fields, so each Go function becomes a
  pure function of its inputs and of the outcome of each effect.
* AES-GCM is modelled as an ideal AEAD: sealing records the exact key,
  nonce, AAD and plaintext handed to `gcm.Seal`, and opening succeeds
  precisely when key, nonce and AAD coincide with those recorded at
  sealing.  SHA-256, HMAC and HKDF are implemented concretely, following
  FIPS 180-4 / RFC 2104 / RFC 5869 exactly as Go's `crypto/sha256`,
  `crypto/hmac` and `crypto/hkdf` do.
-/

abbrev Bytes := List Nat

/-- `2 ^ 32`, the modulus of Go's `uint32` arithmetic inside SHA-256. -/
def u32Mod : Nat := 4294967296

/-- `2 ^ 64`, the modulus of Go's `uint64` arithmetic. -/
def u64Mod : Nat := 18446744073709551616

/-- Big-endian encoding of a `uint64`, as produced by
`binary.Write(&buf, binary.BigEndian, seq)` in `aad.go` and by the SHA-256
length padding. -/
def beBytes64 (n : Nat) : Bytes :=
  [n / 2 ^ 56 % 256, n / 2 ^ 48 % 256, n / 2 ^ 40 % 256, n / 2 ^ 32 % 256,
   n / 2 ^ 24 % 256, n / 2 ^ 16 % 256, n / 2 ^ 8 % 256, n % 256]

/-! ### SHA-256 (`crypto/sha256`)

Concrete implementation of FIPS 180-4 over byte lists; needed because the
handshake's key derivation (`DeriveSymmetricKey`, `HKDFDeriveKeys`) is
built on it. -/

def rotr32 (x n : Nat) : Nat := ((x >>> n) ||| (x <<< (32 - n))) % u32Mod

def add32 (a b : Nat) : Nat := (a + b) % u32Mod

def smallSigma0 (x : Nat) : Nat := (rotr32 x 7) ^^^ (rotr32 x 18) ^^^ (x >>> 3)

def smallSigma1 (x : Nat) : Nat := (rotr32 x 17) ^^^ (rotr32 x 19) ^^^ (x >>> 10)

def bigSigma0 (x : Nat) : Nat := (rotr32 x 2) ^^^ (rotr32 x 13) ^^^ (rotr32 x 22)

def bigSigma1 (x : Nat) : Nat := (rotr32 x 6) ^^^ (rotr32 x 11) ^^^ (rotr32 x 25)

def chWord (x y z : Nat) : Nat := (x &&& y) ^^^ ((x ^^^ 4294967295) &&& z)

def majWord (x y z : Nat) : Nat := (x &&& y) ^^^ (x &&& z) ^^^ (y &&& z)

def sha256KQ1 : List Nat :=
  [1116352408, 1899447441, 3049323471, 3921009573, 961987163, 1508970993, 2453635748, 2870763221,
   3624381080, 310598401, 607225278, 1426881987, 1925078388, 2162078206, 2614888103, 3248222580]

def sha256KQ2 : List Nat :=
  [3835390401, 4022224774, 264347078, 604807628, 770255983, 1249150122, 1555081692, 1996064986,
   2554220882, 2821834349, 2952996808, 3210313671, 3336571891, 3584528711, 113926993, 338241895]

def sha256KQ3 : List Nat :=
  [666307205, 773529912, 1294757372, 1396182291, 1695183700, 1986661051, 2177026350, 2456956037,
   2730485921, 2820302411, 3259730800, 3345764771, 3516065817, 3600352804, 4094571909, 275423344]

def sha256KQ4 : List Nat :=
  [430227734, 506948616, 659060556, 883997877, 958139571, 1322822218, 1537002063, 1747873779,
   1955562222, 2024104815, 2227730452, 2361852424, 2428436474, 2756734187, 3204031479, 3329325298]

/-- The 64 SHA-256 round constants (FIPS 180-4 §4.2.2), in decimal. -/
def sha256K : List Nat := sha256KQ1 ++ sha256KQ2 ++ sha256KQ3 ++ sha256KQ4

/-- The eight SHA-256 initial hash values (FIPS 180-4 §5.3.3), in decimal. -/
def sha256H0 : List Nat :=
  [1779033703, 3144134277, 1013904242, 2773480762, 1359893119, 2600822924, 528734635, 1541459225]

def sha256Pad (m : Bytes) : Bytes :=
  let padLen := (64 - ((m.length + 9) % 64)) % 64
  m ++ [0x80] ++ List.replicate padLen 0 ++ beBytes64 (m.length * 8)

def bytesToWords32 : Bytes → List Nat
  | a :: b :: c :: d :: rest => (((a * 256 + b) * 256 + c) * 256 + d) :: bytesToWords32 rest
  | _ => []

def wordsToBytes (ws : List Nat) : Bytes :=
  (ws.map (fun w => [w / 2 ^ 24 % 256, w / 2 ^ 16 % 256, w / 2 ^ 8 % 256, w % 256])).flatten

def scheduleStep (ws : List Nat) : List Nat :=
  let l := ws.length
  ws ++ [add32 (add32 (smallSigma1 (ws.getD (l - 2) 0)) (ws.getD (l - 7) 0))
              (add32 (smallSigma0 (ws.getD (l - 15) 0)) (ws.getD (l - 16) 0))]

def buildSchedule (ws : List Nat) : List Nat :=
  (List.range 48).foldl (fun acc _ => scheduleStep acc) ws

def compressStep (k w : Nat) (st : List Nat) : List Nat :=
  match st with
  | [a, b, c, d, e, f, g, h] =>
    let t1 := add32 h (add32 (bigSigma1 e) (add32 (chWord e f g) (add32 k w)))
    let t2 := add32 (bigSigma0 a) (majWord a b c)
    [add32 t1 t2, a, b, c, add32 d t1, e, f, g]
  | other => other

def sha256Block (h : List Nat) (block : List Nat) : List Nat :=
  let ws := buildSchedule block
  let st := (List.zip sha256K ws).foldl (fun st kw => compressStep kw.1 kw.2 st) h
  List.zipWith add32 h st

def sha256Blocks : Nat → List Nat → Bytes → List Nat
  | 0, h, _ => h
  | n + 1, h, bytes => sha256Blocks n (sha256Block h (bytesToWords32 (bytes.take 64))) (bytes.drop 64)

def sha256 (m : Bytes) : Bytes :=
  let p := sha256Pad m
  wordsToBytes (sha256Blocks (p.length / 64) sha256H0 p)

/-! ### HMAC-SHA-256 and HKDF (`crypto/hmac`, `crypto/hkdf`) -/

/-- HMAC-SHA-256 (RFC 2104), block size 64 bytes, as in Go's `crypto/hmac`. -/
def hmacSha256 (key msg : Bytes) : Bytes :=
  let k0 := if 64 < key.length then sha256 key else key
  let kp := k0 ++ List.replicate (64 - k0.length) 0
  sha256 ((kp.map (fun b => b ^^^ 0x5c)) ++ sha256 ((kp.map (fun b => b ^^^ 0x36)) ++ msg))

/-- `hkdf.Extract(sha256.New, secret, salt)`: `PRK = HMAC-SHA-256(salt, secret)`,
with an all-zero hash-length salt when none is given (RFC 5869 §2.2). -/
def hkdfExtract (secret salt : Bytes) : Bytes :=
  hmacSha256 (if salt.isEmpty then List.replicate 32 0 else salt) secret

def hkdfExpandLoop (prk info : Bytes) : Nat → Bytes → Nat → Bytes
  | 0, _, _ => []
  | n + 1, prev, ctr =>
    let t := hmacSha256 prk (prev ++ info ++ [ctr % 256])
    t ++ hkdfExpandLoop prk info n t (ctr + 1)

/-- `hkdf.Expand(sha256.New, prk, info, len)` (RFC 5869 §2.3):
`T(i) = HMAC(prk, T(i-1) ‖ info ‖ [i])`, output truncated to `len` bytes. -/
def hkdfExpand (prk info : Bytes) (len : Nat) : Bytes :=
  (hkdfExpandLoop prk info ((len + 31) / 32) [] 1).take len

/-! ### Key derivation (`internal/key_exchange`) -/

/-- UTF-8 bytes of the literal info string `"c2s"`. -/
def c2sInfo : Bytes := [0x63, 0x32, 0x73]

/-- UTF-8 bytes of the literal info string `"s2c"`. -/
def s2cInfo : Bytes := [0x73, 0x32, 0x63]

/-- `key_exchange.HKDFDeriveKeys` (`internal/key_exchange/hkdf.go` lines 13-35):
`prk = hkdf.Extract(sha256.New, sharedSecret, salt)`, then
`keyC2S = hkdf.Expand(sha256.New, prk, "c2s", 16)` and
`keyS2C = hkdf.Expand(sha256.New, prk, "s2c", 16)`.
The hash-write error branches of the Go code are unreachable and elided. -/
def HKDFDeriveKeys (sharedSecret salt : Bytes) : Bytes × Bytes :=
  let prk := hkdfExtract sharedSecret salt
  (hkdfExpand prk c2sInfo 16, hkdfExpand prk s2cInfo 16)

/-- `key_exchange.DeriveSymmetricKey` (part_009 lines 111-120): the legacy
single-key derivation `SHA-256(salt ‖ sharedSecret)` — the hash is fed the
salt first, then the secret. -/
def DeriveSymmetricKey (sharedSecret salt : Bytes) : Bytes :=
  sha256 (salt ++ sharedSecret)

/-! ### AAD construction (`internal/hub/aad.go`) -/

/-- `hub.BuildAAD` (`internal/hub/aad.go` lines 8-17): the UTF-8 bytes of
`sender`, then of `recipient`, then the big-endian `uint64` encoding of
`seq`.  An empty `recipient` contributes zero bytes. -/
def BuildAAD (sender recipient : Bytes) (seq : Nat) : Bytes :=
  sender ++ recipient ++ beBytes64 seq

/-! ### Ideal AEAD and the symmetric seal/open wrappers (part_009) -/

/-- An AES-GCM ciphertext, idealised: it records exactly the key, nonce,
AAD and plaintext that were handed to `gcm.Seal`. -/
structure SealedBox where
  key : Bytes
  nonce : Bytes
  aad : Bytes
  plaintext : Bytes
deriving DecidableEq, Repr

def gcmSeal (key nonce plaintext aad : Bytes) : SealedBox :=
  ⟨key, nonce, aad, plaintext⟩

/-- `gcm.Open` in the ideal model: succeeds precisely when key, nonce and
AAD coincide with the values recorded at sealing (AES-GCM's authenticity
guarantee; a real tag mismatch returns an error). -/
def gcmOpen (key nonce aad : Bytes) (box : SealedBox) : Option Bytes :=
  if box.key = key ∧ box.nonce = nonce ∧ box.aad = aad then some box.plaintext else none

/-- `key_exchange.EncryptWithSymmetric` (part_009 lines 122-140):
`gcm.Seal(nil, iv, plaintext, nil)` — note the `nil` (empty) AAD.  The
randomly generated 12-byte `iv` is externalised as an argument; the base64
encoding of the wire form is modelled away (it is a bijection). -/
def EncryptWithSymmetric (key plaintext iv : Bytes) : SealedBox × Bytes :=
  (gcmSeal key iv plaintext [], iv)

/-- `key_exchange.DecryptWithSymmetric` (part_009 lines 142-168):
`gcm.Open(nil, iv, ciphertext, nil)` — also with `nil` AAD. -/
def DecryptWithSymmetric (key : Bytes) (box : SealedBox) (iv : Bytes) : Option Bytes :=
  gcmOpen key iv [] box

/-- Modelled from the spec: `key_exchange.DecryptWithSymmetricAAD` is called
by the newest `ReadPump` (part_006 line 158) but its body is not among the
sources.  Per §4.A/§4.E it is AES-GCM open with the caller-supplied AAD:
`gcm.Open(nil, iv, ciphertext, aad)`. -/
def DecryptWithSymmetricAAD (key : Bytes) (box : SealedBox) (iv aad : Bytes) : Option Bytes :=
  gcmOpen key iv aad box

/-! ### Session counters (`internal/hub/session.go`) -/

/-- `Session.AdvanceRecvSeq` (`session.go` lines 40-50), sequentialised:
given the current value of the atomic `recvSeq` and the candidate `seq`,
return whether the advance was accepted together with the new `recvSeq`.
In the single-caller view the CAS always succeeds on the first attempt, so
the loop reduces to one comparison. -/
def AdvanceRecvSeq (current seq : Nat) : Bool × Nat :=
  if seq ≤ current then (false, current) else (true, seq)

/-- `Session.NextSeq` (`session.go` lines 28-30): `sendSeq.Add(1)`.
Go's `atomic.Uint64.Add` wraps modulo `2 ^ 64`; the pair is
(returned value, new counter state), which coincide. -/
def NextSeq (sendSeq : Nat) : Nat × Nat :=
  let v := (sendSeq + 1) % u64Mod
  (v, v)

/-! ### The read loop (part_006, newest revision, `ReadPump` lines 99-168) -/

/-- The wire frame read by the newest `ReadPump`.  `content`/`iv` are
`none` when the corresponding JSON string field is empty (the
`encryptedMsg.Content == "" || encryptedMsg.IV == ""` check).  The `SeqNo`,
`SenderID` and `RecipientID` fields are referenced by `ReadPump`; the
`EncryptedMessage` revision declaring `SeqNo` is absent from the sources,
so that field follows the spec's wire-frame layout (§3: `seq_no` unsigned
64-bit). -/
structure WireFrame where
  sessionId : Nat
  senderId : Bytes
  recipientId : Bytes
  seqNo : Nat
  content : Option SealedBox
  iv : Option Bytes
deriving DecidableEq

/-- The in-memory session view (`hub.Session`): immutable id and keys plus
the two counters. -/
structure SessionState where
  id : Nat
  keyC2S : Bytes
  keyS2C : Bytes
  recvSeq : Nat
  sendSeq : Nat
deriving DecidableEq

/-- Result of one `ReadPump` iteration on a frame: the updated session
state, the `(recipientID, plaintext)` handed to `onMessage` (the hub) if
any, and whether this branch tears the connection down (frame-processing
branches never do; only transport errors, outside this function, close). -/
structure ReadOutcome where
  state : SessionState
  delivered : Option (Bytes × Bytes)
  closesConn : Bool
deriving DecidableEq

/-- One iteration of the newest `ReadPump` (part_006 lines 122-167) on a
decoded frame: drop if `content`/`iv` empty; drop if the frame's session id
differs from the connection's; drop if `AdvanceRecvSeq` refuses the
sequence number (note the watermark advances before decryption, so a
failed decrypt still consumes the sequence number, exactly as in the Go
code); otherwise open with `K_c2s` and `BuildAAD` and deliver. -/
def processFrame (s : SessionState) (f : WireFrame) : ReadOutcome :=
  match f.content, f.iv with
  | some box, some iv =>
    if f.sessionId ≠ s.id then ⟨s, none, false⟩
    else
      match AdvanceRecvSeq s.recvSeq f.seqNo with
      | (false, _) => ⟨s, none, false⟩
      | (true, newRecv) =>
        let s2 := { s with recvSeq := newRecv }
        match DecryptWithSymmetricAAD s.keyC2S box iv
            (BuildAAD f.senderId f.recipientId f.seqNo) with
        | some pt => ⟨s2, some (f.recipientId, pt), false⟩
        | none => ⟨s2, none, false⟩
  | _, _ => ⟨s, none, false⟩

/-! ### The hub's broadcast dispatch (`internal/hub/hub.go`) -/

/-- A registered connection as the two `broadcastMessage` revisions see it:
`tag` models Go pointer identity of the `*Client`, `sessionID` the
connection's session id, and `symmetricKey` the client's single symmetric
key (`nil` ⇔ `IsAuthenticated()` is false). -/
structure HubClient where
  tag : Nat
  sessionID : Nat
  symmetricKey : Option Bytes
deriving DecidableEq

/-- The outgoing `EncryptedMessage` built by `broadcastMessage`
(`hub.go` lines 89-93): `SessionID`, `Content`, `IV` — no sender,
recipient or sequence number fields. -/
structure FrameV1 where
  sessionId : Nat
  content : SealedBox
  iv : Bytes
deriving DecidableEq

/-- `Hub.broadcastMessage`, first revision (`hub.go` lines 68-107): for
every registered client, skip the sender (`client == msg.Sender`), skip
unauthenticated clients, seal the payload with
`EncryptWithSymmetric(client.symmetricKey, payload)` — hence with empty
AAD — and enqueue `EncryptedMessage{SessionID: 0, Content, IV}`.  `ivs`
supplies the per-client random nonce; the result lists
`(client tag, frame)` in registration order (the JSON marshalling of the
frame cannot fail and is elided). -/
def broadcastMessage (clients : List HubClient) (sender : Nat) (payload : Bytes)
    (ivs : Nat → Bytes) : List (Nat × FrameV1) :=
  clients.filterMap (fun c =>
    if c.tag = sender then none
    else match c.symmetricKey with
      | none => none
      | some k => some (c.tag, ⟨0, (EncryptWithSymmetric k payload (ivs c.tag)).1, ivs c.tag⟩))

/-- `Hub.broadcastMessage`, second revision (`hub.go` lines 184-201): the
event is an already-sealed `EncryptedMessage` with no sender information;
it is re-marshalled and enqueued verbatim to every authenticated client —
there is no sender skip. -/
def broadcastMessageRev2 (clients : List HubClient) (msg : FrameV1) : List (Nat × FrameV1) :=
  clients.filterMap (fun c =>
    match c.symmetricKey with
    | none => none
    | some _ => some (c.tag, msg))

/-! ### Enqueueing on a connection's outbound queue -/

/-- Outcome of offering a frame to a connection's outbound channel
(`make(chan []byte, 256)`). -/
inductive SendOutcome where
  | enqueued (queue : List Bytes)
  | dropped
  | blocks
  | closedSlowConsumer
deriving DecidableEq

/-- Capacity of the outbound queue: `make(chan []byte, 256)`. -/
def sendQueueCap : Nat := 256

/-- `Client.Send`, newest revision (part_006 lines 190-196):
`select { case <-ctx.Done(): return; case c.send <- msg: }`.  With the
context cancelled the message is dropped; with room in the queue it is
appended; with the queue full and the context live *no* select case is
ready and there is no `default`, so the caller blocks. -/
def clientSend (ctxDone : Bool) (queue : List Bytes) (msg : Bytes) : SendOutcome :=
  if ctxDone then .dropped
  else if queue.length < sendQueueCap then .enqueued (queue ++ [msg])
  else .blocks

/-- `Client.Send`, middle revision (part_006 lines 333-339):
`select { case c.send <- msg: default: c.Close() }` — non-blocking: a full
queue takes the `default` branch, which closes the outbound channel. -/
def clientSendMid (queue : List Bytes) (msg : Bytes) : SendOutcome :=
  if queue.length < sendQueueCap then .enqueued (queue ++ [msg])
  else .closedSlowConsumer

/-- The hub-loop enqueue of the historical `main.go` revision (lines
141-146): `select { case client.send <- frame: default: close(client.send);
delete(h.clients, client) }` — non-blocking, closing the slow consumer. -/
def hubEnqueue (queue : List Bytes) (msg : Bytes) : SendOutcome :=
  if queue.length < sendQueueCap then .enqueued (queue ++ [msg])
  else .closedSlowConsumer

/-! ### The key-exchange handler (`server/handlers.go`) -/

/-- A persisted session row, as `database.CreateSession(db, clientID, salt,
symmetricKey)` stores it: client id, salt and the single symmetric key. -/
structure SessionRecord where
  clientId : Bytes
  salt : Bytes
  key : Bytes
deriving DecidableEq

/-- The outcome of every effectful step `KeyExchangeHandler` performs, in
source order.  `Bool`/`Option` fields record whether the step succeeds and,
for value-producing steps, what it yields. -/
structure HandshakeEnv where
  isPost : Bool
  jsonOk : Bool
  clientId : Bytes
  decryptResult : Option Bytes
  parseOk : Bool
  keygenOk : Bool
  pubJwkOk : Bool
  sharedSecretResult : Option Bytes
  saltResult : Option Bytes
  saltDecodeOk : Bool
  deriveKeyOk : Bool
  storeOk : Bool
  marshalOk : Bool
  signOk : Bool
deriving DecidableEq

/-- `KeyExchangeHandler` (`server/handlers.go` lines 35-151), as a function
from the step outcomes and the current store to the HTTP status and the
resulting store.  Branches and status codes follow the source exactly:
405 for non-POST; 400 for bad JSON, failed RSA-OAEP unwrap, bad client JWK
or failed shared-secret derivation; 500 for key-generation, JWK-encoding,
salt, key-derivation, store, marshalling and signing failures.  On success
the session row `{clientId, salt, DeriveSymmetricKey(sharedSecret, salt)}`
is appended to the store *before* the payload is marshalled and signed. -/
def KeyExchangeHandler (env : HandshakeEnv) (store : List SessionRecord) :
    Nat × List SessionRecord :=
  if env.isPost = false then (405, store) else
  if env.jsonOk = false then (400, store) else
  match env.decryptResult with
  | none => (400, store)
  | some _ =>
    if env.parseOk = false then (400, store) else
    if env.keygenOk = false then (500, store) else
    if env.pubJwkOk = false then (500, store) else
    match env.sharedSecretResult with
    | none => (400, store)
    | some sharedSecret =>
      match env.saltResult with
      | none => (500, store)
      | some saltBytes =>
        if env.saltDecodeOk = false then (500, store) else
        if env.deriveKeyOk = false then (500, store) else
        if env.storeOk = false then (500, store) else
        let store2 := store ++ [⟨env.clientId, saltBytes, DeriveSymmetricKey sharedSecret saltBytes⟩]
        if env.marshalOk = false then (500, store2) else
        if env.signOk = false then (500, store2) else
        (200, store2)

/-! ## Concrete scenario data shared by the theorems below -/

/-- UTF-8 bytes of the client id `"alice"`. -/
def alice : Bytes := [0x61, 0x6c, 0x69, 0x63, 0x65]

/-- A fixed 12-byte nonce source for concrete broadcast scenarios. -/
def c2Ivs : Nat → Bytes := fun _ => [9, 9, 9, 9, 9, 9, 9, 9, 9, 9, 9, 9]

def c2Payload : Bytes := [0x68, 0x69]

/-- Two registered connections: client 1 (session 5, key `[1, 1]`) and
client 2 (session 7, key `[2, 2]`), both authenticated. -/
def c2Clients : List HubClient := [⟨1, 5, some [1, 1]⟩, ⟨2, 7, some [2, 2]⟩]

/-- The frame client 1's read loop handed to the forwarding hub revision:
client 1's own sealed broadcast (its session id 5). -/
def c6Msg : FrameV1 := ⟨5, ⟨[1, 1], [9, 9], [], [0x68]⟩, [9, 9]⟩

/-! ## C7 — `AdvanceRecvSeq` returns true iff the sequence advances -/

/-- Claim C7: for every session and every value `seq`,
`AdvanceRecvSeq(seq)` returns `true` iff `seq` is strictly greater than the
current `recv_seq` (the CAS of the sequentialised loop always succeeding),
in which case `recv_seq` becomes `seq`; otherwise it returns `false` and
`recv_seq` is unchanged. -/
theorem advance_recv_seq_iff (current seq : Nat) :
    ((AdvanceRecvSeq current seq).1 = true ↔ current < seq) ∧
    (AdvanceRecvSeq current seq).2 = (if current < seq then seq else current) := by
  unfold AdvanceRecvSeq
  by_cases h : seq ≤ current
  · have h2 : ¬ current < seq := Nat.not_lt.mpr h
    simp [h, h2]
  · have h2 : current < seq := Nat.lt_of_not_le h
    simp [h, h2]

/-! ## C8 — `NextSeq` wraps silently at `2 ^ 64` -/

/-- Claim C8 counterexample: two successive `NextSeq` calls starting from
counter state `2 ^ 64 - 2` return `2 ^ 64 - 1` and then `0` — the second
value is not greater than the first, and no fatal error occurs: the
`uint64` counter silently wraps, refuting "must not wrap; overflow is a
fatal error". -/
theorem next_seq_wraps_silently :
    (NextSeq (u64Mod - 2)).1 = u64Mod - 1 ∧
    (NextSeq (NextSeq (u64Mod - 2)).2).1 = 0 ∧
    ¬ (NextSeq (u64Mod - 2)).1 < (NextSeq (NextSeq (u64Mod - 2)).2).1 := by
  refine ⟨by decide, by decide, by decide⟩

/-- Claim C8 amended: successive `NextSeq` calls return strictly increasing,
never-reused values as long as the counter stays below `2 ^ 64 - 1`; at the
boundary the counter silently wraps to `0` instead of raising a fatal
error. -/
theorem next_seq_monotone_below_wrap (s : Nat) (h : s + 1 < u64Mod) :
    NextSeq s = (s + 1, s + 1) ∧ s < (NextSeq s).1 := by
  have hv : NextSeq s = (s + 1, s + 1) := by
    unfold NextSeq
    simp [Nat.mod_eq_of_lt h]
  refine ⟨hv, ?_⟩
  rw [hv]
  exact Nat.lt_succ_self s

/-- Witness for `next_seq_monotone_below_wrap` at counter state `5`. -/
theorem next_seq_monotone_below_wrap_witness :
    NextSeq 5 = (6, 6) ∧ 5 < (NextSeq 5).1 :=
  next_seq_monotone_below_wrap 5 (by decide)

/-! ## C9 — enqueueing on a full outbound queue -/

/-- A full outbound queue: 256 buffered frames. -/
def fullQueue : List Bytes := List.replicate sendQueueCap [0x68]

/-- Claim C9 counterexample: with the outbound queue full (256 frames) and
the context live, the newest `Client.Send` (part_006 lines 190-196) has no
ready select case and no `default`, so the enqueue blocks — it does not
close the slow connection as the claim states. -/
theorem client_send_blocks_on_full_queue :
    clientSend false fullQueue [0x69] = SendOutcome.blocks ∧
    SendOutcome.blocks ≠ SendOutcome.closedSlowConsumer := by
  have h2 : ¬ fullQueue.length < sendQueueCap := by
    simp [fullQueue]
  refine ⟨by unfold clientSend; simp [h2], by decide⟩

/-- Claim C9 amended: the non-blocking close-on-full behaviour exists in
the historical `main.go` hub loop (lines 141-146: full queue ⇒ close the
slow consumer, dispatch continues with the other targets) and in the
middle `Client.Send` revision (part_006 lines 333-339: `default` ⇒ close
the outbound channel); the newest `Client.Send` (part_006 lines 190-196),
however, has no `default` select case, so on a full queue it blocks (until
cancellation or space) and does not close the connection. -/
theorem enqueue_full_queue_behavior (q : List Bytes) (m : Bytes)
    (h : sendQueueCap ≤ q.length) :
    hubEnqueue q m = SendOutcome.closedSlowConsumer ∧
    clientSendMid q m = SendOutcome.closedSlowConsumer ∧
    clientSend false q m = SendOutcome.blocks := by
  have h2 : ¬ q.length < sendQueueCap := Nat.not_lt.mpr h
  unfold hubEnqueue clientSendMid clientSend
  simp [h2]

/-- Witness for `enqueue_full_queue_behavior` on a concrete full queue. -/
theorem enqueue_full_queue_behavior_witness :
    hubEnqueue fullQueue [0x69] = SendOutcome.closedSlowConsumer ∧
    clientSendMid fullQueue [0x69] = SendOutcome.closedSlowConsumer ∧
    clientSend false fullQueue [0x69] = SendOutcome.blocks :=
  enqueue_full_queue_behavior fullQueue [0x69] (by simp [fullQueue])

/-! ## C5 — replayed or out-of-order frames are never delivered -/

/-- Claim C5: for every session state and every inbound frame whose
`seq_no` is at most the current `recv_seq`, the read loop drops the frame:
nothing is delivered to the hub, the connection stays alive, and the
session state is unchanged. -/
theorem replay_not_delivered (s : SessionState) (f : WireFrame)
    (h : f.seqNo ≤ s.recvSeq) :
    (processFrame s f).delivered = none ∧
    (processFrame s f).closesConn = false ∧
    (processFrame s f).state = s := by
  cases hc : f.content with
  | none => simp [processFrame, hc]
  | some box =>
    cases hiv : f.iv with
    | none => simp [processFrame, hc, hiv]
    | some iv =>
      have hadv : AdvanceRecvSeq s.recvSeq f.seqNo = (false, s.recvSeq) := by
        unfold AdvanceRecvSeq
        simp [h]
      by_cases hid : f.sessionId ≠ s.id
      · simp [processFrame, hc, hiv, hid]
      · simp [processFrame, hc, hiv, hid, hadv]

/-- Witness for `replay_not_delivered`: a session at watermark 10 receiving
a frame with sequence number 7. -/
def c5wState : SessionState := ⟨5, [1, 1], [3, 3], 10, 0⟩

def c5wFrame : WireFrame :=
  ⟨5, alice, [], 7, some ⟨[1, 1], [9], BuildAAD alice [] 7, [0x68]⟩, some [9]⟩

theorem replay_not_delivered_witness :
    (processFrame c5wState c5wFrame).delivered = none ∧
    (processFrame c5wState c5wFrame).closesConn = false ∧
    (processFrame c5wState c5wFrame).state = c5wState :=
  replay_not_delivered c5wState c5wFrame (by decide)

/-! ## C10 — sequence number zero is always rejected -/

/-- Claim C10: a frame carrying `seq_no = 0` is never delivered to the hub,
whatever the current watermark: `recv_seq` starts at 0 and acceptance
requires `seq > recv_seq`, and `0 ≤ recv_seq` always; hence clients must
number frames starting at 1. -/
theorem seq_zero_always_rejected (s : SessionState) (f : WireFrame)
    (h : f.seqNo = 0) :
    (processFrame s f).delivered = none ∧ (processFrame s f).state = s := by
  cases hc : f.content with
  | none => simp [processFrame, hc]
  | some box =>
    cases hiv : f.iv with
    | none => simp [processFrame, hc, hiv]
    | some iv =>
      have hadv : AdvanceRecvSeq s.recvSeq f.seqNo = (false, s.recvSeq) := by
        unfold AdvanceRecvSeq
        simp [h]
      by_cases hid : f.sessionId ≠ s.id
      · simp [processFrame, hc, hiv, hid]
      · simp [processFrame, hc, hiv, hid, hadv]

/-- Witness for `seq_zero_always_rejected`: a fresh session (watermark 0)
receiving a frame numbered 0. -/
def c10wState : SessionState := ⟨3, [4, 4], [5, 5], 0, 0⟩

def c10wFrame : WireFrame :=
  ⟨3, alice, [], 0, some ⟨[4, 4], [8], BuildAAD alice [] 0, [0x70]⟩, some [8]⟩

theorem seq_zero_always_rejected_witness :
    (processFrame c10wState c10wFrame).delivered = none ∧
    (processFrame c10wState c10wFrame).state = c10wState :=
  seq_zero_always_rejected c10wState c10wFrame (by decide)

/-! ## C6 — echo suppression holds in one broadcast revision, fails in the other -/

/-- Claim C6 counterexample: in the forwarding revision of
`broadcastMessage` (`hub.go` lines 184-201) the sender is not skipped.
Client 1 originated `c6Msg` (the frame carries its session id 5); the hub
enqueues that very frame back on client 1's outbound queue, so the
originator does receive a copy of its own broadcast. -/
theorem rev2_broadcast_echoes_sender :
    ((1 : Nat), c6Msg) ∈ broadcastMessageRev2 c2Clients c6Msg := by decide

/-- Claim C6 amended: in the re-encrypting revision of `broadcastMessage`
(`hub.go` lines 68-107) the sender is skipped and never receives its own
broadcast; in the forwarding revision (lines 184-201) the sealed frame is
enqueued to every authenticated client, the originator included. -/
theorem echo_suppression_by_revision (clients : List HubClient) (sender : Nat)
    (payload : Bytes) (ivs : Nat → Bytes) (msg : FrameV1) :
    (∀ p ∈ broadcastMessage clients sender payload ivs, p.1 ≠ sender) ∧
    (∀ c ∈ clients, c.symmetricKey ≠ none → (c.tag, msg) ∈ broadcastMessageRev2 clients msg) := by
  constructor
  · intro p hp
    simp only [broadcastMessage, List.mem_filterMap] at hp
    obtain ⟨c, _hc, hfc⟩ := hp
    by_cases ht : c.tag = sender
    · simp [ht] at hfc
    · cases hk : c.symmetricKey with
      | none => simp [ht, hk] at hfc
      | some k =>
        simp only [ht, hk, if_neg, not_false_iff, ite_false] at hfc
        simp only [Option.some.injEq] at hfc
        rw [← hfc]
        exact ht
  · intro c hc hk
    simp only [broadcastMessageRev2, List.mem_filterMap]
    refine ⟨c, hc, ?_⟩
    cases h : c.symmetricKey with
    | none => exact absurd h hk
    | some k => simp

/-- The frame the re-encrypting broadcast produces for client 2 in the
concrete two-client scenario. -/
def c6f2 : FrameV1 := ⟨0, gcmSeal [2, 2] (c2Ivs 2) [0x68] [], c2Ivs 2⟩

/-- Witness for `echo_suppression_by_revision` on the two-client scenario:
the frame delivered to client 2 did not go to the sender (client 1), and
the authenticated client 2 receives the forwarded frame in the second
revision. -/
theorem echo_suppression_by_revision_witness :
    (((2 : Nat), c6f2) : Nat × FrameV1).1 ≠ 1 ∧
    ((2 : Nat), c6Msg) ∈ broadcastMessageRev2 c2Clients c6Msg :=
  ⟨(echo_suppression_by_revision c2Clients 1 [0x68] c2Ivs c6Msg).1 (2, c6f2) (by decide),
   (echo_suppression_by_revision c2Clients 1 [0x68] c2Ivs c6Msg).2 ⟨2, 7, some [2, 2]⟩
     (by decide) (by decide)⟩

/-! ## C2 — AAD binding -/

/-- Claim C2 counterexample: the only frame the broker's re-encrypting
broadcast seals in the concrete two-client scenario carries *empty* AAD
(`EncryptWithSymmetric` passes `nil` to `gcm.Seal`), while the mandated
AAD `sender ‖ recipient ‖ BE64(seq)` is never empty — e.g. for sender
`"alice"`, empty recipient and `seq = 1` it has 13 bytes. -/
theorem broker_seal_empty_aad :
    (broadcastMessage c2Clients 1 c2Payload c2Ivs).map (fun p => p.2.content.aad) = [[]] ∧
    BuildAAD alice [] 1 ≠ [] := by
  refine ⟨by decide, by decide⟩

/-- Characterisation of what one read-loop iteration delivers, for frames
with non-empty content and iv: nothing unless the session id matches, the
sequence number advances the watermark, and the ideal AEAD open succeeds,
i.e. key, nonce and AAD equal those recorded at sealing. -/
theorem processFrame_delivered_eq (s : SessionState) (f : WireFrame) (box : SealedBox)
    (iv : Bytes) (hc : f.content = some box) (hiv : f.iv = some iv) :
    (processFrame s f).delivered =
      if f.sessionId ≠ s.id then none
      else if f.seqNo ≤ s.recvSeq then none
      else if box.key = s.keyC2S ∧ box.nonce = iv ∧
          box.aad = BuildAAD f.senderId f.recipientId f.seqNo then
        some (f.recipientId, box.plaintext)
      else none := by
  simp only [processFrame, hc, hiv]
  by_cases hid : f.sessionId ≠ s.id
  · simp [hid]
  · by_cases hseq : f.seqNo ≤ s.recvSeq
    · simp [hid, hseq, AdvanceRecvSeq]
    · by_cases hmatch : box.key = s.keyC2S ∧ box.nonce = iv ∧
          box.aad = BuildAAD f.senderId f.recipientId f.seqNo
      · simp [hid, hseq, AdvanceRecvSeq, DecryptWithSymmetricAAD, gcmOpen, hmatch]
      · simp [hid, hseq, AdvanceRecvSeq, DecryptWithSymmetricAAD, gcmOpen, hmatch]

/-- Claim C2 amended: frames *opened* by the broker's read loop are bound
to `AAD = sender ‖ recipient ‖ BE64(seq_no)`: a frame whose sealed AAD
bytes differ from `BuildAAD(sender_id, recipient_id, seq_no)` of the frame
as received fails AEAD-open and is dropped, and any delivered plaintext
was sealed with exactly that AAD.  Frames *sealed* by the broker's
broadcast path, in contrast, always carry empty AAD. -/
theorem read_open_aad_binding (s : SessionState) (f : WireFrame) (box : SealedBox)
    (iv : Bytes) (hc : f.content = some box) (hiv : f.iv = some iv) :
    (box.aad ≠ BuildAAD f.senderId f.recipientId f.seqNo →
      (processFrame s f).delivered = none) ∧
    (∀ pt, (processFrame s f).delivered = some pt →
      box.aad = BuildAAD f.senderId f.recipientId f.seqNo ∧
      pt = (f.recipientId, box.plaintext)) ∧
    ∀ key payload iv2, ((EncryptWithSymmetric key payload iv2).1).aad = [] := by
  refine ⟨?_, ?_, fun key payload iv2 => rfl⟩
  · intro hne
    rw [processFrame_delivered_eq s f box iv hc hiv]
    by_cases hid : f.sessionId ≠ s.id
    · simp [hid]
    · by_cases hseq : f.seqNo ≤ s.recvSeq
      · simp [hid, hseq]
      · have hmatch : ¬ (box.key = s.keyC2S ∧ box.nonce = iv ∧
            box.aad = BuildAAD f.senderId f.recipientId f.seqNo) := by
          rintro ⟨-, -, h3⟩
          exact hne h3
        simp [hid, hseq, hmatch]
  · intro pt hpt
    rw [processFrame_delivered_eq s f box iv hc hiv] at hpt
    by_cases hid : f.sessionId ≠ s.id
    · simp [hid] at hpt
    · by_cases hseq : f.seqNo ≤ s.recvSeq
      · simp [hid, hseq] at hpt
      · by_cases hmatch : box.key = s.keyC2S ∧ box.nonce = iv ∧
            box.aad = BuildAAD f.senderId f.recipientId f.seqNo
        · rw [if_neg hid, if_neg hseq, if_pos hmatch] at hpt
          injection hpt with hpt2
          exact ⟨hmatch.2.2, hpt2.symm⟩
        · simp [hid, hseq, hmatch] at hpt

/-- A frame sealed the way the broker's broadcast path seals (empty AAD),
arriving at the read loop of the target session: its AAD cannot match
`BuildAAD`, so it must be dropped. -/
def c2wState : SessionState := ⟨5, [1, 1], [3, 3], 0, 0⟩

def c2wBox : SealedBox := ⟨[1, 1], [9], [], [0x68]⟩

def c2wFrame : WireFrame := ⟨5, alice, [], 1, some c2wBox, some [9]⟩

/-- Witness for `read_open_aad_binding`: the empty-AAD frame is dropped by
the read loop. -/
theorem read_open_aad_binding_witness :
    (processFrame c2wState c2wFrame).delivered = none :=
  (read_open_aad_binding c2wState c2wFrame c2wBox [9] rfl rfl).1 (by decide)

/-! ## C3 — what the broadcast dispatch actually builds -/

/-- The frame the re-encrypting `broadcastMessage` produces for client 2
(session 7) in the concrete scenario. -/
def c3Frame : FrameV1 := ⟨0, gcmSeal [2, 2] (c2Ivs 2) c2Payload [], c2Ivs 2⟩

/-- Claim C3: the dispatch described by the spec — a fresh sequence number
from the target session's `NextSeq`, sealing under the target's `K_s2c`,
and an outgoing frame `{session_id: target.session.id, sender_id,
recipient_id, seq_no, content, iv}` — is not what the code does.  In the
concrete two-client scenario the frame enqueued for client 2 has
`sessionId = 0` (not the target's session id 7), is sealed under the
target's single `symmetricKey` `[2, 2]` (not a `K_s2c`) with empty AAD,
and carries no sender, recipient or sequence-number fields at all; the
outgoing `EncryptedMessage` type has none, `NextSeq` is never invoked by
the dispatch (`broadcastMessage` does not touch any session counter), and
the original event's `recipient_id` is discarded by `Hub.Broadcast`. -/
theorem broadcast_frame_ignores_session_seq_keys :
    broadcastMessage c2Clients 1 c2Payload c2Ivs = [(2, c3Frame)] ∧
    c3Frame.sessionId = 0 ∧ c3Frame.sessionId ≠ 7 ∧
    c3Frame.content.key = [2, 2] ∧ c3Frame.content.aad = [] := by
  refine ⟨by decide, by decide, by decide, by decide, by decide⟩

/-! ## C1 — the handshake derives the legacy single key, not the HKDF pair -/

/-- A concrete 32-byte ECDH shared secret. -/
def c1SharedSecret : Bytes := (List.range 32).map (fun i => i + 1)

/-- A concrete 32-byte salt. -/
def c1Salt : Bytes := (List.range 32).map (fun i => 100 + i)

/-- A fully successful run of every effectful step of the handshake. -/
def c1Env : HandshakeEnv :=
  ⟨true, true, alice, some [0x7b], true, true, true,
   some c1SharedSecret, some c1Salt, true, true, true, true, true⟩

set_option maxRecDepth 100000 in
/-- Claim C1: the spec mandates that session keys come from
`HKDFDeriveKeys` and that the legacy `DeriveSymmetricKey = SHA-256(salt ‖
secret)` is never used to create a session.  The code does the opposite:
on this successful handshake the session row is created with the single
32-byte legacy key `DeriveSymmetricKey(sharedSecret, salt)`
(`handlers.go` lines 108-116); `HKDFDeriveKeys` has no caller.  The legacy
key moreover differs from both 16-byte HKDF keys, so no reading of the
stored row matches the spec's `(K_c2s, K_s2c)`. -/
theorem kx_stores_legacy_key_not_hkdf :
    (KeyExchangeHandler c1Env []).1 = 200 ∧
    (KeyExchangeHandler c1Env []).2 =
      [⟨alice, c1Salt, DeriveSymmetricKey c1SharedSecret c1Salt⟩] ∧
    (DeriveSymmetricKey c1SharedSecret c1Salt).length = 32 ∧
    ((HKDFDeriveKeys c1SharedSecret c1Salt).1).length = 16 ∧
    ((HKDFDeriveKeys c1SharedSecret c1Salt).2).length = 16 ∧
    DeriveSymmetricKey c1SharedSecret c1Salt ≠ (HKDFDeriveKeys c1SharedSecret c1Salt).1 ∧
    DeriveSymmetricKey c1SharedSecret c1Salt ≠ (HKDFDeriveKeys c1SharedSecret c1Salt).2 := by
  refine ⟨rfl, rfl, by decide, by decide, by decide, by decide, by decide⟩

/-! ## C4 — which failures leave the session store unchanged -/

/-- A handshake run whose only failure is `json.Marshal` of the response
payload — a step that runs *after* `database.CreateSession`. -/
def c4Env : HandshakeEnv := { c1Env with marshalOk := false }

set_option maxRecDepth 100000 in
/-- Claim C4 counterexample: on a payload-marshalling failure the handler
responds 500, yet a session row has already been created — the store is
not unchanged, refuting "no session record is created" for marshalling
(and likewise signing) failures. -/
theorem kx_marshal_failure_leaves_session :
    (KeyExchangeHandler c4Env []).1 = 500 ∧ (KeyExchangeHandler c4Env []).2 ≠ [] := by
  refine ⟨rfl, by decide⟩

/-- Helper: across all branches of `KeyExchangeHandler`, any non-success
response with marshalling and signing healthy leaves the store unchanged,
and any 500 response that changed the store can only stem from the
marshalling or signing step. -/
theorem kx_store_change_only_marshal_sign (env : HandshakeEnv) (store : List SessionRecord) :
    ((KeyExchangeHandler env store).1 ≠ 200 → env.marshalOk = true → env.signOk = true →
      (KeyExchangeHandler env store).2 = store) ∧
    ((KeyExchangeHandler env store).1 = 500 → (KeyExchangeHandler env store).2 ≠ store →
      (env.marshalOk = false ∨ env.signOk = false)) := by
  unfold KeyExchangeHandler
  repeat' split
  all_goals simp_all

/-- Claim C4 amended: for a well-formed request (POST, valid JSON,
successful RSA-OAEP unwrap and client-key parse), every internal failure —
server key generation, JWK encoding, salt generation (random source), salt
decoding, key derivation, storage — makes the handler respond 500 with the
store unchanged; a payload-marshalling or signing failure, which occurs
*after* `database.CreateSession`, also responds 500 but the session record
just created remains in the store.  Conversely, any non-success response
with marshalling and signing healthy leaves the store unchanged, and any
500 that changed the store can only stem from marshalling or signing. -/
theorem kx_error_store_discipline (env : HandshakeEnv) (store : List SessionRecord)
    (hp : env.isPost = true) (hj : env.jsonOk = true) (d : Bytes)
    (hd : env.decryptResult = some d) (hpar : env.parseOk = true) :
    (env.keygenOk = false → KeyExchangeHandler env store = (500, store)) ∧
    (env.keygenOk = true → env.pubJwkOk = false →
      KeyExchangeHandler env store = (500, store)) ∧
    (∀ ss, env.sharedSecretResult = some ss → env.keygenOk = true → env.pubJwkOk = true →
      env.saltResult = none → KeyExchangeHandler env store = (500, store)) ∧
    (∀ ss salt, env.sharedSecretResult = some ss → env.saltResult = some salt →
      env.keygenOk = true → env.pubJwkOk = true → env.saltDecodeOk = false →
      KeyExchangeHandler env store = (500, store)) ∧
    (∀ ss salt, env.sharedSecretResult = some ss → env.saltResult = some salt →
      env.keygenOk = true → env.pubJwkOk = true → env.saltDecodeOk = true →
      env.deriveKeyOk = false → KeyExchangeHandler env store = (500, store)) ∧
    (∀ ss salt, env.sharedSecretResult = some ss → env.saltResult = some salt →
      env.keygenOk = true → env.pubJwkOk = true → env.saltDecodeOk = true →
      env.deriveKeyOk = true → env.storeOk = false →
      KeyExchangeHandler env store = (500, store)) ∧
    (∀ ss salt, env.sharedSecretResult = some ss → env.saltResult = some salt →
      env.keygenOk = true → env.pubJwkOk = true → env.saltDecodeOk = true →
      env.deriveKeyOk = true → env.storeOk = true → env.marshalOk = false →
      KeyExchangeHandler env store =
        (500, store ++ [⟨env.clientId, salt, DeriveSymmetricKey ss salt⟩])) ∧
    (∀ ss salt, env.sharedSecretResult = some ss → env.saltResult = some salt →
      env.keygenOk = true → env.pubJwkOk = true → env.saltDecodeOk = true →
      env.deriveKeyOk = true → env.storeOk = true → env.marshalOk = true →
      env.signOk = false →
      KeyExchangeHandler env store =
        (500, store ++ [⟨env.clientId, salt, DeriveSymmetricKey ss salt⟩])) ∧
    ((KeyExchangeHandler env store).1 ≠ 200 → env.marshalOk = true → env.signOk = true →
      (KeyExchangeHandler env store).2 = store) ∧
    ((KeyExchangeHandler env store).1 = 500 → (KeyExchangeHandler env store).2 ≠ store →
      (env.marshalOk = false ∨ env.signOk = false)) := by
  refine ⟨?_, ?_, ?_, ?_, ?_, ?_, ?_, ?_,
    (kx_store_change_only_marshal_sign env store).1,
    (kx_store_change_only_marshal_sign env store).2⟩
  · intro h1
    simp [KeyExchangeHandler, hp, hj, hd, hpar, h1]
  · intro h1 h2
    simp [KeyExchangeHandler, hp, hj, hd, hpar, h1, h2]
  · intro ss hss h1 h2 h3
    simp [KeyExchangeHandler, hp, hj, hd, hpar, hss, h1, h2, h3]
  · intro ss salt hss hsalt h1 h2 h3
    simp [KeyExchangeHandler, hp, hj, hd, hpar, hss, hsalt, h1, h2, h3]
  · intro ss salt hss hsalt h1 h2 h3 h4
    simp [KeyExchangeHandler, hp, hj, hd, hpar, hss, hsalt, h1, h2, h3, h4]
  · intro ss salt hss hsalt h1 h2 h3 h4 h5
    simp [KeyExchangeHandler, hp, hj, hd, hpar, hss, hsalt, h1, h2, h3, h4, h5]
  · intro ss salt hss hsalt h1 h2 h3 h4 h5 h6
    simp [KeyExchangeHandler, hp, hj, hd, hpar, hss, hsalt, h1, h2, h3, h4, h5, h6]
  · intro ss salt hss hsalt h1 h2 h3 h4 h5 h6 h7
    simp [KeyExchangeHandler, hp, hj, hd, hpar, hss, hsalt, h1, h2, h3, h4, h5, h6, h7]

/-- A handshake run failing at server key generation, a step before the
store write. -/
def c4wEnv : HandshakeEnv := { c1Env with keygenOk := false }

/-- A handshake run failing only at signing, a step after the store
write. -/
def c4sEnv : HandshakeEnv := { c1Env with signOk := false }

/-- Witness for `kx_error_store_discipline`: the key-generation failure
responds 500 without touching the store, and the signing failure responds
500 with the freshly created session row retained. -/
theorem kx_error_store_discipline_witness :
    KeyExchangeHandler c4wEnv [] = (500, []) ∧
    KeyExchangeHandler c4sEnv [] =
      (500, [⟨alice, c1Salt, DeriveSymmetricKey c1SharedSecret c1Salt⟩]) :=
  ⟨(kx_error_store_discipline c4wEnv [] rfl rfl [0x7b] rfl rfl).1 rfl,
   (kx_error_store_discipline c4sEnv [] rfl rfl [0x7b] rfl rfl).2.2.2.2.2.2.2.1
     c1SharedSecret c1Salt rfl rfl rfl rfl rfl rfl rfl rfl rfl⟩
